import Mathlib

/-!
Shallow embedding of the Kafka correlation-matching bridge
(src/project/client: kafka_client.py, app.py, gcp_config.py) and proofs
about it.  Time is measured in integer milliseconds; the poll loop of
KafkaClient.consume_one advances the clock by the duration of each
consumer.poll call (timeout_ms=1000, so a duration lies in [0, 1000]).
-/

namespace Client

/-- Shallow embedding of the deserialized JSON values (Python objects) that
flow through the bridge.  A Python dict is embedded as its sequence of
key/value entries (dictCons ... emptyDict); a Python list as a cons chain. -/
inductive PyVal where
  | pynone
  | pyint (n : Int)
  | str (s : String)
  | emptyDict
  | dictCons (key : String) (value : PyVal) (rest : PyVal)
  | emptyList
  | listCons (head : PyVal) (tail : PyVal)
deriving DecidableEq

/-- Python isinstance(msg, dict). -/
def PyVal.isDict : PyVal → Bool
  | .emptyDict => true
  | .dictCons _ _ _ => true
  | _ => false

/-- Python dict.get applied to a key: the stored value, or none when the key
is absent (or the receiver is not a dict). -/
def PyVal.get : PyVal → String → Option PyVal
  | .dictCons k v rest, key => if k = key then some v else rest.get key
  | _, _ => Option.none

/-- The acceptance test of KafkaClient.consume_one on one deserialized
message: isinstance(msg, dict) and msg.get of the correlation_id key equals
the supplied correlation id.  The supplied id is a Python str, and Python
equality between a str and a value of another type (or None) is False, so
the test passes exactly when the stored value is that same string. -/
def matchesCorrelationId (msg : PyVal) (cid : String) : Bool :=
  msg.isDict &&
    match msg.get "correlation_id" with
    | some (.str s) => s == cid
    | _ => false

/-- A raw record body fetched from the response topic: either bytes that
json.loads accepts, carrying the deserialized value, or bytes it rejects. -/
inductive RawBody where
  | valid (v : PyVal)
  | malformed
deriving DecidableEq

/-- The value_deserializer applied to every record fetched by one
consumer.poll call, in arrival order.  json.loads raising on a malformed
body propagates out of the poll, modelled as none. -/
def deserializeBatch : List RawBody → Option (List PyVal)
  | [] => some []
  | RawBody.malformed :: _ => Option.none
  | RawBody.valid v :: rs => (deserializeBatch rs).map (fun ms => v :: ms)

/-- The record scan inside the poll loop of consume_one: the first message
passing the correlation test, if any. -/
def findMatch (cid : String) : List PyVal → Option PyVal
  | [] => Option.none
  | m :: rest => if matchesCorrelationId m cid then some m else findMatch cid rest

/-- One call to consumer.poll with timeout_ms=1000: how long the call
blocked (milliseconds) and the raw record bodies it fetched, in arrival
order. -/
structure Poll where
  duration : Int
  records : List RawBody
deriving DecidableEq

inductive ConsumeOutcome where
  | found (msg : PyVal)
  | timedOut
  | pollError
  | stuck
deriving DecidableEq

/-- Observable result of one consume_one call: the outcome, the clock value
when the call ends, how many polls were issued, and whether consumer.close
ran.  stuck is a model artifact meaning the supplied poll trace ended while
the loop was still running. -/
structure ConsumeRun where
  outcome : ConsumeOutcome
  endTime : Int
  pollCount : Nat
  consumerClosed : Bool
deriving DecidableEq

/-- The while-loop of KafkaClient.consume_one: while the clock is before the
deadline, poll; deserializing the fetched batch raises out of the loop on a
malformed body; the first matching message is returned at once; otherwise
the loop keeps polling, and exits with None once the deadline has passed.
The try/finally wrapping the loop runs consumer.close on the match, error
and deadline exits alike. -/
def consumeLoop (cid : String) (deadline : Int) : Int → Nat → List Poll → ConsumeRun
  | t, n, [] =>
    if t < deadline then ⟨ConsumeOutcome.stuck, t, n, false⟩
    else ⟨ConsumeOutcome.timedOut, t, n, true⟩
  | t, n, p :: rest =>
    if t < deadline then
      match deserializeBatch p.records with
      | Option.none => ⟨ConsumeOutcome.pollError, t + p.duration, n + 1, true⟩
      | some msgs =>
        match findMatch cid msgs with
        | some m => ⟨ConsumeOutcome.found m, t + p.duration, n + 1, true⟩
        | Option.none => consumeLoop cid deadline (t + p.duration) (n + 1) rest
    else ⟨ConsumeOutcome.timedOut, t, n, true⟩

/-- KafkaClient.consume_one: opens a fresh consumer on the response topic
(auto_offset_reset latest, its own consumer group), computes
deadline = time.time() + timeout (timeout in seconds, the clock in
milliseconds) and runs the poll loop over the supplied poll trace. -/
def consume_one (cid : String) (timeout : Int) (start : Int)
    (polls : List Poll) : ConsumeRun :=
  consumeLoop cid (start + 1000 * timeout) start 0 polls

/-- Environment variables: a partial map from names to values. -/
def Env : Type := String → Option String

/-- Python os.getenv with a default. -/
def getenv (env : Env) (key dflt : String) : String :=
  (env key).getD dflt

/-- Whitespace removal at both ends of a character list, as Python
str.strip() with no argument performs. -/
def stripChars (cs : List Char) : List Char :=
  ((cs.dropWhile Char.isWhitespace).reverse.dropWhile Char.isWhitespace).reverse

/-- Python str.strip() with no argument. -/
def pyStrip (s : String) : String :=
  String.mk (stripChars s.data)

/-- Value of a nonempty run of decimal digits, most significant first;
none as soon as a non-digit appears. -/
def decDigitsAux : List Char → Nat → Option Nat
  | [], acc => some acc
  | c :: cs, acc =>
    if c.isDigit then decDigitsAux cs (acc * 10 + (c.toNat - 48)) else Option.none

/-- Value of a run of decimal digits, rejecting the empty run. -/
def decDigits : List Char → Option Nat
  | [] => Option.none
  | cs => decDigitsAux cs 0

/-- Model of the Python builtin int applied to a string, as used on form
fields and environment values: surrounding whitespace is stripped, one
optional sign is allowed, and the remainder must be a nonempty run of
decimal digits; anything else raises ValueError, modelled as none. -/
def pyInt (s : String) : Option Int :=
  match stripChars s.data with
  | '-' :: cs => (decDigits cs).map (fun v => -(v : Int))
  | '+' :: cs => (decDigits cs).map (fun v => ((v : Nat) : Int))
  | cs => (decDigits cs).map (fun v => ((v : Nat) : Int))

/-- Broker interactions performed by one handler call: a publish of a
message to a request topic (the attempt KafkaClient.produce makes), and the
subscription consume_one opens on a response topic with its derived
consumer-group id. -/
inductive BrokerEvent where
  | publish (topic : String) (message : PyVal)
  | subscribe (topic : String) (groupId : String)
deriving DecidableEq

/-- Caller-visible outcome of one Flask handler call: a 400 validation
response, an exception propagated from produce (broker did not
acknowledge), an exception from int() applied to the timeout environment
value, a 504 timeout response, a 200 body, an exception propagated from the
poll loop, or the model artifact of an exhausted poll trace. -/
inductive HandlerOutcome where
  | badRequest (error : String)
  | publishRaised
  | configRaised
  | gatewayTimeout (error : String)
  | ok (body : PyVal)
  | consumeRaised
  | incomplete
deriving DecidableEq

/-- Result of one handler call: its outcome and the broker events it
performed, in order. -/
structure HandlerRun where
  outcome : HandlerOutcome
  events : List BrokerEvent
deriving DecidableEq

/-- Flask handler index_papers (POST): validates scholar_url, publishes the
tagged request to the KAFKA_TOPIC_SEARCH_REQUEST topic, reads and parses
KAFKA_RESPONSE_TIMEOUT, then blocks in consume_one on the
KAFKA_TOPIC_SEARCH_RESPONSE topic; on a match it replies with a status-ok
body.  brokerAck says whether the broker acknowledges the publish (produce
raises otherwise). -/
def index_papers (env : Env) (scholarUrlField : Option String) (brokerAck : Bool)
    (cid : String) (start : Int) (polls : List Poll) : HandlerRun :=
  let scholar_url := pyStrip (scholarUrlField.getD "")
  if scholar_url = "" then ⟨HandlerOutcome.badRequest "No URL provided", []⟩
  else
    let message := PyVal.dictCons "correlation_id" (PyVal.str cid)
      (PyVal.dictCons "scholar_url" (PyVal.str scholar_url) PyVal.emptyDict)
    let reqTopic := getenv env "KAFKA_TOPIC_SEARCH_REQUEST" "search-request"
    if brokerAck then
      match pyInt (getenv env "KAFKA_RESPONSE_TIMEOUT" "120") with
      | Option.none => ⟨HandlerOutcome.configRaised, [BrokerEvent.publish reqTopic message]⟩
      | some timeout =>
        let respTopic := getenv env "KAFKA_TOPIC_SEARCH_RESPONSE" "search-response"
        let events := [BrokerEvent.publish reqTopic message,
          BrokerEvent.subscribe respTopic ("flask-client-" ++ cid)]
        match (consume_one cid timeout start polls).outcome with
        | ConsumeOutcome.found _ =>
          ⟨HandlerOutcome.ok (PyVal.dictCons "status" (PyVal.str "ok") PyVal.emptyDict), events⟩
        | ConsumeOutcome.timedOut =>
          ⟨HandlerOutcome.gatewayTimeout "Timed out waiting for indexing response", events⟩
        | ConsumeOutcome.pollError => ⟨HandlerOutcome.consumeRaised, events⟩
        | ConsumeOutcome.stuck => ⟨HandlerOutcome.incomplete, events⟩
    else ⟨HandlerOutcome.publishRaised, [BrokerEvent.publish reqTopic message]⟩

/-- Flask handler search (POST): validates the term, publishes to the
KAFKA_TOPIC_SEARCH_TERM_REQUEST topic and waits on the
KAFKA_TOPIC_SEARCH_TERM_RESPONSE topic; a matched response is returned to
the caller unchanged. -/
def search (env : Env) (termField : Option String) (brokerAck : Bool)
    (cid : String) (start : Int) (polls : List Poll) : HandlerRun :=
  let term := pyStrip (termField.getD "")
  if term = "" then ⟨HandlerOutcome.badRequest "No search term provided", []⟩
  else
    let message := PyVal.dictCons "correlation_id" (PyVal.str cid)
      (PyVal.dictCons "term" (PyVal.str term) PyVal.emptyDict)
    let reqTopic := getenv env "KAFKA_TOPIC_SEARCH_TERM_REQUEST" "search-term-request"
    if brokerAck then
      match pyInt (getenv env "KAFKA_RESPONSE_TIMEOUT" "120") with
      | Option.none => ⟨HandlerOutcome.configRaised, [BrokerEvent.publish reqTopic message]⟩
      | some timeout =>
        let respTopic := getenv env "KAFKA_TOPIC_SEARCH_TERM_RESPONSE" "search-term-response"
        let events := [BrokerEvent.publish reqTopic message,
          BrokerEvent.subscribe respTopic ("flask-client-" ++ cid)]
        match (consume_one cid timeout start polls).outcome with
        | ConsumeOutcome.found m => ⟨HandlerOutcome.ok m, events⟩
        | ConsumeOutcome.timedOut =>
          ⟨HandlerOutcome.gatewayTimeout "Timed out waiting for search response", events⟩
        | ConsumeOutcome.pollError => ⟨HandlerOutcome.consumeRaised, events⟩
        | ConsumeOutcome.stuck => ⟨HandlerOutcome.incomplete, events⟩
    else ⟨HandlerOutcome.publishRaised, [BrokerEvent.publish reqTopic message]⟩

/-- The expression int(request.form.get of n with default 10) in the topn
handler: an absent field gives the integer default 10 unchanged; a present
field goes through int(), whose ValueError is modelled as none. -/
def topnParseN : Option String → Option Int
  | Option.none => some 10
  | some s => pyInt s

/-- Flask handler topn (POST): parses n (a ValueError gives a 400 before
any broker interaction), publishes to the KAFKA_TOPIC_TOPN_REQUEST topic
and waits on the KAFKA_TOPIC_TOPN_RESPONSE topic. -/
def topn (env : Env) (nField : Option String) (brokerAck : Bool)
    (cid : String) (start : Int) (polls : List Poll) : HandlerRun :=
  match topnParseN nField with
  | Option.none => ⟨HandlerOutcome.badRequest "N must be an integer", []⟩
  | some n =>
    let message := PyVal.dictCons "correlation_id" (PyVal.str cid)
      (PyVal.dictCons "n" (PyVal.pyint n) PyVal.emptyDict)
    let reqTopic := getenv env "KAFKA_TOPIC_TOPN_REQUEST" "topn-request"
    if brokerAck then
      match pyInt (getenv env "KAFKA_RESPONSE_TIMEOUT" "120") with
      | Option.none => ⟨HandlerOutcome.configRaised, [BrokerEvent.publish reqTopic message]⟩
      | some timeout =>
        let respTopic := getenv env "KAFKA_TOPIC_TOPN_RESPONSE" "topn-response"
        let events := [BrokerEvent.publish reqTopic message,
          BrokerEvent.subscribe respTopic ("flask-client-" ++ cid)]
        match (consume_one cid timeout start polls).outcome with
        | ConsumeOutcome.found m => ⟨HandlerOutcome.ok m, events⟩
        | ConsumeOutcome.timedOut =>
          ⟨HandlerOutcome.gatewayTimeout "Timed out waiting for top-N response", events⟩
        | ConsumeOutcome.pollError => ⟨HandlerOutcome.consumeRaised, events⟩
        | ConsumeOutcome.stuck => ⟨HandlerOutcome.incomplete, events⟩
    else ⟨HandlerOutcome.publishRaised, [BrokerEvent.publish reqTopic message]⟩

/-- The missing-variable scan of gcp_config._validate_config: of the two
required values, in order, those that are falsy.  The empty string also
covers the unset case, since os.getenv defaults both to the empty string at
module import. -/
def missingConfig (projectId clusterName : String) : List String :=
  ((("GCP_PROJECT_ID", projectId) :: ("DATAPROC_CLUSTER_NAME", clusterName) :: []).filter
    (fun nv => nv.2 == "")).map (fun nv => nv.1)

inductive DataprocOutcome where
  | envError (missing : List String)
  | jobId (s : String)
deriving DecidableEq

/-- Result of gcp_config.trigger_dataproc_job: either the EnvironmentError
raised by _validate_config, or the returned job id, together with the list
of Dataproc job submissions actually performed. -/
structure DataprocRun where
  outcome : DataprocOutcome
  submittedJobs : List (List String)
deriving DecidableEq

set_option linter.unusedVariables false in
/-- gcp_config.trigger_dataproc_job: runs _validate_config (raising an
EnvironmentError naming the missing variables when any required value is
empty); the submission itself is a placeholder, so when validation passes
it submits nothing and returns a constant job id.  jobArgs is only
logged. -/
def trigger_dataproc_job (projectId clusterName : String)
    (jobArgs : Option (List String)) : DataprocRun :=
  let missing := missingConfig projectId clusterName
  if missing.isEmpty then
    ⟨DataprocOutcome.jobId "dataproc-job-not-yet-implemented", []⟩
  else ⟨DataprocOutcome.envError missing, []⟩

/-- A message arriving on the response topic at a given clock value. -/
structure Arrival where
  time : Int
  body : RawBody
deriving DecidableEq

/-- Modelled from the spec: the Broker Adapter operation subscribe with
read position latest — the source configures auto_offset_reset latest under
a fresh consumer group, so the subscription yields only messages published
after it was opened and never replays history.  The broker itself
(kafka-python plus the cluster) is external to the repository, so its
visibility rule is taken from the spec's adapter contract. -/
def visibleTo (openTime : Int) (log : List Arrival) : List Arrival :=
  log.filter (fun a => decide (openTime < a.time))

/-- Decidable check that a broker-event trace places the publish of the
request strictly before the subscription to the response topic: the trace
is empty, a lone publish, or a publish followed by a subscribe.  In
particular no trace accepted by this check observes the response topic
before the request has been published. -/
def publishFirstB : List BrokerEvent → Bool
  | [] => true
  | BrokerEvent.publish _ _ :: [] => true
  | BrokerEvent.publish _ _ :: BrokerEvent.subscribe _ _ :: [] => true
  | _ => false

/-! ## Helper lemmas about the poll loop -/

lemma findMatch_matches (cid : String) :
    ∀ (msgs : List PyVal) (m : PyVal),
      findMatch cid msgs = some m → matchesCorrelationId m cid = true := by
  intro msgs
  induction msgs with
  | nil => intro m h; simp [findMatch] at h
  | cons x rest ih =>
    intro m h
    by_cases hx : matchesCorrelationId x cid = true
    · simp only [findMatch, if_pos hx, Option.some.injEq] at h
      exact h ▸ hx
    · simp only [findMatch, if_neg hx] at h
      exact ih m h

lemma deserializeBatch_find_decomp (cid : String) :
    ∀ (rs : List RawBody) (msgs : List PyVal) (m : PyVal),
      deserializeBatch rs = some msgs → findMatch cid msgs = some m →
      ∃ pre post, rs = pre ++ RawBody.valid m :: post ∧
        ∀ r ∈ pre, ∃ v, r = RawBody.valid v ∧ matchesCorrelationId v cid = false := by
  intro rs
  induction rs with
  | nil =>
    intro msgs m hd hf
    simp only [deserializeBatch, Option.some.injEq] at hd
    subst hd
    simp [findMatch] at hf
  | cons r rest ih =>
    intro msgs m hd hf
    cases r with
    | malformed => simp [deserializeBatch] at hd
    | valid v =>
      simp only [deserializeBatch, Option.map_eq_some'] at hd
      obtain ⟨ms, hms, hcons⟩ := hd
      subst hcons
      by_cases hv : matchesCorrelationId v cid = true
      · simp only [findMatch, if_pos hv, Option.some.injEq] at hf
        subst hf
        exact ⟨[], rest, rfl, by simp⟩
      · simp only [findMatch, if_neg hv] at hf
        obtain ⟨pre, post, heq, hpre⟩ := ih ms m hms hf
        rw [Bool.not_eq_true] at hv
        refine ⟨RawBody.valid v :: pre, post, by simp [heq], ?_⟩
        intro r hr
        rcases List.mem_cons.mp hr with hr | hr
        · exact ⟨v, hr, hv⟩
        · exact hpre r hr

lemma deserializeBatch_nomatch (cid : String) :
    ∀ (rs : List RawBody) (msgs : List PyVal),
      deserializeBatch rs = some msgs → findMatch cid msgs = Option.none →
      ∀ r ∈ rs, ∃ v, r = RawBody.valid v ∧ matchesCorrelationId v cid = false := by
  intro rs
  induction rs with
  | nil => intro msgs hd hf r hr; simp at hr
  | cons r0 rest ih =>
    intro msgs hd hf r hr
    cases r0 with
    | malformed => simp [deserializeBatch] at hd
    | valid v =>
      simp only [deserializeBatch, Option.map_eq_some'] at hd
      obtain ⟨ms, hms, hcons⟩ := hd
      subst hcons
      by_cases hv : matchesCorrelationId v cid = true
      · simp [findMatch, hv] at hf
      · simp only [findMatch, if_neg hv] at hf
        rw [Bool.not_eq_true] at hv
        rcases List.mem_cons.mp hr with hr | hr
        · exact ⟨v, hr, hv⟩
        · exact ih ms hms hf r hr

lemma consumeLoop_found_decomp (cid : String) (deadline : Int) :
    ∀ (polls : List Poll) (t : Int) (n : Nat) (m : PyVal),
      (consumeLoop cid deadline t n polls).outcome = ConsumeOutcome.found m →
      matchesCorrelationId m cid = true ∧
      ∃ pre post, (polls.map Poll.records).flatten = pre ++ RawBody.valid m :: post ∧
        ∀ r ∈ pre, ∃ v, r = RawBody.valid v ∧ matchesCorrelationId v cid = false := by
  intro polls
  induction polls with
  | nil =>
    intro t n m h
    by_cases ht : t < deadline <;> simp [consumeLoop, ht] at h
  | cons p rest ih =>
    intro t n m h
    by_cases ht : t < deadline
    · simp only [consumeLoop, if_pos ht] at h
      cases hd : deserializeBatch p.records with
      | none => simp only [hd] at h; simp at h
      | some msgs =>
        simp only [hd] at h
        cases hf : findMatch cid msgs with
        | some m0 =>
          simp only [hf, ConsumeOutcome.found.injEq] at h
          subst h
          refine ⟨findMatch_matches cid msgs m0 hf, ?_⟩
          obtain ⟨pre, post, heq, hpre⟩ := deserializeBatch_find_decomp cid p.records msgs m0 hd hf
          exact ⟨pre, post ++ (rest.map Poll.records).flatten, by simp [heq], hpre⟩
        | none =>
          simp only [hf] at h
          obtain ⟨hm, pre, post, heq, hpre⟩ := ih (t + p.duration) (n + 1) m h
          refine ⟨hm, p.records ++ pre, post, by simp [heq], ?_⟩
          intro r hr
          rcases List.mem_append.mp hr with hr | hr
          · exact deserializeBatch_nomatch cid p.records msgs hd hf r hr
          · exact hpre r hr
    · simp [consumeLoop, ht] at h

lemma consumeLoop_closes (cid : String) (deadline : Int) :
    ∀ (polls : List Poll) (t : Int) (n : Nat),
      (consumeLoop cid deadline t n polls).outcome ≠ ConsumeOutcome.stuck →
      (consumeLoop cid deadline t n polls).consumerClosed = true := by
  intro polls
  induction polls with
  | nil =>
    intro t n h
    by_cases ht : t < deadline
    · simp [consumeLoop, ht] at h
    · simp [consumeLoop, ht]
  | cons p rest ih =>
    intro t n h
    by_cases ht : t < deadline
    · simp only [consumeLoop, if_pos ht] at h ⊢
      cases hd : deserializeBatch p.records with
      | none => simp [hd]
      | some msgs =>
        simp only [hd] at h ⊢
        cases hf : findMatch cid msgs with
        | some m => simp [hf]
        | none =>
          simp only [hf] at h ⊢
          exact ih (t + p.duration) (n + 1) h
    · simp [consumeLoop, ht]

lemma consumeLoop_timedOut_window (cid : String) (deadline : Int) :
    ∀ (polls : List Poll) (t : Int) (n : Nat),
      (∀ p ∈ polls, 0 ≤ p.duration ∧ p.duration ≤ 1000) →
      t ≤ deadline + 1000 →
      (consumeLoop cid deadline t n polls).outcome = ConsumeOutcome.timedOut →
      deadline ≤ (consumeLoop cid deadline t n polls).endTime ∧
        (consumeLoop cid deadline t n polls).endTime ≤ deadline + 1000 := by
  intro polls
  induction polls with
  | nil =>
    intro t n hdur ht h
    by_cases hlt : t < deadline
    · simp [consumeLoop, hlt] at h
    · simp only [consumeLoop, if_neg hlt]
      exact ⟨le_of_not_lt hlt, ht⟩
  | cons p rest ih =>
    intro t n hdur ht h
    by_cases hlt : t < deadline
    · simp only [consumeLoop, if_pos hlt] at h ⊢
      cases hd : deserializeBatch p.records with
      | none => simp only [hd] at h; simp at h
      | some msgs =>
        simp only [hd] at h ⊢
        cases hf : findMatch cid msgs with
        | some m => simp only [hf] at h; simp at h
        | none =>
          simp only [hf] at h ⊢
          have hp := hdur p (by simp)
          refine ih (t + p.duration) (n + 1) (fun q hq => hdur q (by simp [hq])) ?_ h
          omega
    · simp only [consumeLoop, if_neg hlt]
      exact ⟨le_of_not_lt hlt, ht⟩

lemma consumeLoop_complete (cid : String) (deadline : Int) :
    ∀ (pollsA : List Poll) (t : Int) (n : Nat) (pm : Poll) (rest : List Poll)
      (msgs : List PyVal) (m : PyVal),
      (∀ k, k ≤ pollsA.length → t + ((pollsA.take k).map Poll.duration).sum < deadline) →
      (∀ p ∈ pollsA, ∃ ms, deserializeBatch p.records = some ms ∧
        findMatch cid ms = Option.none) →
      deserializeBatch pm.records = some msgs →
      findMatch cid msgs = some m →
      (consumeLoop cid deadline t n (pollsA ++ pm :: rest)).outcome =
        ConsumeOutcome.found m := by
  intro pollsA
  induction pollsA with
  | nil =>
    intro t n pm rest msgs m hk hA hd hf
    have ht : t < deadline := by simpa using hk 0 (by simp)
    simp [consumeLoop, ht, hd, hf]
  | cons p A ih =>
    intro t n pm rest msgs m hk hA hd hf
    have ht : t < deadline := by simpa using hk 0 (by simp)
    obtain ⟨ms, hdp, hfp⟩ := hA p (by simp)
    rw [List.cons_append]
    simp only [consumeLoop, if_pos ht, hdp, hfp]
    refine ih (t + p.duration) (n + 1) pm rest msgs m ?_
      (fun q hq => hA q (by simp [hq])) hd hf
    intro k hkle
    have hk1 := hk (k + 1) (by simpa using Nat.succ_le_succ hkle)
    simp only [List.take_succ_cons, List.map_cons, List.sum_cons] at hk1
    omega

lemma index_papers_publishFirstB (env : Env) (u : Option String) (ack : Bool)
    (cid : String) (start : Int) (polls : List Poll) :
    publishFirstB (index_papers env u ack cid start polls).events = true := by
  by_cases hu : pyStrip (u.getD "") = ""
  · simp [index_papers, hu, publishFirstB]
  · cases ack with
    | false => simp [index_papers, hu, publishFirstB]
    | true =>
      cases hp : pyInt (getenv env "KAFKA_RESPONSE_TIMEOUT" "120") with
      | none => simp [index_papers, hu, hp, publishFirstB]
      | some timeout =>
        cases ho : (consume_one cid timeout start polls).outcome <;>
          simp [index_papers, hu, hp, ho, publishFirstB]

lemma search_publishFirstB (env : Env) (tf : Option String) (ack : Bool)
    (cid : String) (start : Int) (polls : List Poll) :
    publishFirstB (search env tf ack cid start polls).events = true := by
  by_cases htf : pyStrip (tf.getD "") = ""
  · simp [search, htf, publishFirstB]
  · cases ack with
    | false => simp [search, htf, publishFirstB]
    | true =>
      cases hp : pyInt (getenv env "KAFKA_RESPONSE_TIMEOUT" "120") with
      | none => simp [search, htf, hp, publishFirstB]
      | some timeout =>
        cases ho : (consume_one cid timeout start polls).outcome <;>
          simp [search, htf, hp, ho, publishFirstB]

lemma topn_publishFirstB (env : Env) (nf : Option String) (ack : Bool)
    (cid : String) (start : Int) (polls : List Poll) :
    publishFirstB (topn env nf ack cid start polls).events = true := by
  cases hn : topnParseN nf with
  | none => simp [topn, hn, publishFirstB]
  | some n =>
    cases ack with
    | false => simp [topn, hn, publishFirstB]
    | true =>
      cases hp : pyInt (getenv env "KAFKA_RESPONSE_TIMEOUT" "120") with
      | none => simp [topn, hn, hp, publishFirstB]
      | some timeout =>
        cases ho : (consume_one cid timeout start polls).outcome <;>
          simp [topn, hn, hp, ho, publishFirstB]

/-! ## Sample values used by witnesses and counterexamples -/

/-- A well-formed response envelope carrying only a correlation id. -/
def msgOf (cid : String) : PyVal :=
  PyVal.dictCons "correlation_id" (PyVal.str cid) PyVal.emptyDict

/-- One poll fetching responses for the ids A, B, X, C in that order. -/
def pollABXC : Poll :=
  ⟨1000, [RawBody.valid (msgOf "A"), RawBody.valid (msgOf "B"),
    RawBody.valid (msgOf "X"), RawBody.valid (msgOf "C")]⟩

/-- The deserialized batch of pollABXC. -/
def msgsABXC : List PyVal := [msgOf "A", msgOf "B", msgOf "X", msgOf "C"]

/-- An environment with no variable set. -/
def env0 : Env := fun _ => Option.none

/-- An environment setting only the response timeout, to zero seconds. -/
def envZero : Env := fun k => if k = "KAFKA_RESPONSE_TIMEOUT" then some "0" else Option.none

/-- An environment setting the response timeout to a non-integer value. -/
def envBadTimeout : Env :=
  fun k => if k = "KAFKA_RESPONSE_TIMEOUT" then some "abc" else Option.none

/-! ## Claims -/

/-- C1: for every stream of messages polled from the response topic,
consume_one called with correlation id X returns the first message in
arrival order that is a mapping whose correlation_id field equals X, and
never returns any message whose correlation_id differs from X.  The first
conjunct: any returned message passes the correlation test and is preceded
only by well-formed messages failing it.  The second conjunct: when the
polls preceding a matching message all stay inside the deadline and carry
no match, the first matching message is indeed returned. -/
theorem consume_one_first_match :
    (∀ (cid : String) (timeout start : Int) (polls : List Poll) (m : PyVal),
      (consume_one cid timeout start polls).outcome = ConsumeOutcome.found m →
      matchesCorrelationId m cid = true ∧
      ∃ pre post, (polls.map Poll.records).flatten = pre ++ RawBody.valid m :: post ∧
        ∀ r ∈ pre, ∃ v, r = RawBody.valid v ∧ matchesCorrelationId v cid = false) ∧
    (∀ (cid : String) (timeout start : Int) (pollsA : List Poll) (pm : Poll)
       (rest : List Poll) (msgs : List PyVal) (m : PyVal),
      (∀ k, k ≤ pollsA.length →
        start + ((pollsA.take k).map Poll.duration).sum < start + 1000 * timeout) →
      (∀ p ∈ pollsA, ∃ ms, deserializeBatch p.records = some ms ∧
        findMatch cid ms = Option.none) →
      deserializeBatch pm.records = some msgs →
      findMatch cid msgs = some m →
      (consume_one cid timeout start (pollsA ++ pm :: rest)).outcome =
        ConsumeOutcome.found m) :=
  ⟨fun cid _ start polls m h => consumeLoop_found_decomp cid _ polls start 0 m h,
   fun cid _ start pollsA pm rest msgs m hk hA hd hf =>
     consumeLoop_complete cid _ pollsA start 0 pm rest msgs m hk hA hd hf⟩

/-- C1 witness: the listener awaiting X over the stream A, B, X, C returns
the response for X, which passes the correlation test and is preceded only
by non-matching well-formed messages. -/
theorem consume_one_first_match_witness :
    (matchesCorrelationId (msgOf "X") "X" = true ∧
      ∃ pre post,
        ([pollABXC].map Poll.records).flatten = pre ++ RawBody.valid (msgOf "X") :: post ∧
        ∀ r ∈ pre, ∃ v, r = RawBody.valid v ∧ matchesCorrelationId v "X" = false) ∧
    (consume_one "X" 120 0 ([] ++ pollABXC :: [])).outcome =
      ConsumeOutcome.found (msgOf "X") :=
  ⟨consume_one_first_match.1 "X" 120 0 [pollABXC] (msgOf "X") (by decide),
   consume_one_first_match.2 "X" 120 0 [] pollABXC [] msgsABXC (msgOf "X")
     (by intro k hk; simp at hk; subst hk; simp) (by simp)
     (by decide) (by decide)⟩

/-- C2 counterexample: a message on the response topic whose body json.loads
rejects terminates the call with the deserialization error after the first
poll, although the deadline of 120 seconds is far from reached — the claim
that malformed messages are discarded and never terminate the call is false
on the code, which wraps no exception handler around the poll. -/
theorem consume_malformed_counterexample :
    (consume_one "x" 120 0 [⟨1000, [RawBody.malformed]⟩]).outcome =
      ConsumeOutcome.pollError ∧
    (consume_one "x" 120 0 [⟨1000, [RawBody.malformed]⟩]).endTime = 1000 := by
  decide

/-- C2 amended: a message that deserializes but is not a dict or lacks a
matching correlation_id is discarded and polling continues (first
conjunct); a message whose body fails JSON parsing raises out of the poll
and terminates the call with an error — the consumer is still closed
(second conjunct). -/
theorem consume_discard_and_error :
    (∀ (cid : String) (deadline t : Int) (n : Nat) (p : Poll) (rest : List Poll)
       (msgs : List PyVal),
      t < deadline → deserializeBatch p.records = some msgs →
      findMatch cid msgs = Option.none →
      consumeLoop cid deadline t n (p :: rest) =
        consumeLoop cid deadline (t + p.duration) (n + 1) rest) ∧
    (∀ (cid : String) (deadline t : Int) (n : Nat) (p : Poll) (rest : List Poll),
      t < deadline → deserializeBatch p.records = Option.none →
      consumeLoop cid deadline t n (p :: rest) =
        ⟨ConsumeOutcome.pollError, t + p.duration, n + 1, true⟩) := by
  constructor
  · intro cid deadline t n p rest msgs hlt hd hf
    simp [consumeLoop, hlt, hd, hf]
  · intro cid deadline t n p rest hlt hd
    simp [consumeLoop, hlt, hd]

/-- C2 amended witness: a non-dict message is skipped and the loop moves on;
a malformed body ends the run with the poll error. -/
theorem consume_discard_and_error_witness :
    consumeLoop "x" 5000 0 0 [⟨1000, [RawBody.valid PyVal.pynone]⟩] =
      consumeLoop "x" 5000 (0 + 1000) (0 + 1) [] ∧
    consumeLoop "x" 5000 0 0 [⟨1000, [RawBody.malformed]⟩] =
      ⟨ConsumeOutcome.pollError, 0 + 1000, 0 + 1, true⟩ :=
  ⟨consume_discard_and_error.1 "x" 5000 0 0 ⟨1000, [RawBody.valid PyVal.pynone]⟩ []
      [PyVal.pynone] (by decide) (by decide) (by decide),
   consume_discard_and_error.2 "x" 5000 0 0 ⟨1000, [RawBody.malformed]⟩ []
      (by decide) (by decide)⟩

/-- C3: on every exit path of consume_one that actually returns — match
found, deadline reached, or deserialization error while polling — the
consumer opened at call start is closed before the call returns. -/
theorem consume_one_closes_consumer (cid : String) (timeout start : Int)
    (polls : List Poll)
    (h : (consume_one cid timeout start polls).outcome ≠ ConsumeOutcome.stuck) :
    (consume_one cid timeout start polls).consumerClosed = true :=
  consumeLoop_closes cid _ polls start 0 h

/-- C3 witness: a timeout exit closes the consumer. -/
theorem consume_one_closes_consumer_witness :
    (consume_one "x" 0 0 []).outcome ≠ ConsumeOutcome.stuck ∧
    (consume_one "x" 0 0 []).consumerClosed = true :=
  ⟨by decide, consume_one_closes_consumer "x" 0 0 [] (by decide)⟩

/-- C4 counterexample: with the (legal, int-typed) timeout -2 and no
matching message, consume_one returns None at call start, which is 2000 ms
after the deadline — later than one poll slice past the deadline, so the
claimed window fails for every call as stated. -/
theorem consume_negative_timeout_counterexample :
    (consume_one "x" (-2) 0 []).outcome = ConsumeOutcome.timedOut ∧
    ¬ (consume_one "x" (-2) 0 []).endTime ≤ 0 + 1000 * (-2) + 1000 := by
  decide

/-- C4 amended: for every call with nonnegative timeout whose polls respect
the 1000 ms slice and in which no matching message arrives, the timeout
result is returned no earlier than the deadline and no later than one poll
slice after it. -/
theorem consume_one_timeout_window (cid : String) (timeout start : Int)
    (polls : List Poll) (hto : 0 ≤ timeout)
    (hdur : ∀ p ∈ polls, 0 ≤ p.duration ∧ p.duration ≤ 1000)
    (h : (consume_one cid timeout start polls).outcome = ConsumeOutcome.timedOut) :
    start + 1000 * timeout ≤ (consume_one cid timeout start polls).endTime ∧
      (consume_one cid timeout start polls).endTime ≤ start + 1000 * timeout + 1000 :=
  consumeLoop_timedOut_window cid _ polls start 0 hdur (by omega) h

/-- C4 amended witness: a one-second deadline over one empty poll is met
within the window. -/
theorem consume_one_timeout_window_witness :
    (0 : Int) ≤ 1 ∧
    (0 + 1000 * 1 ≤ (consume_one "x" 1 0 [⟨1000, []⟩]).endTime ∧
      (consume_one "x" 1 0 [⟨1000, []⟩]).endTime ≤ 0 + 1000 * 1 + 1000) :=
  ⟨by decide,
   consume_one_timeout_window "x" 1 0 [⟨1000, []⟩] (by decide)
     (by intro p hp; simp at hp; subst hp; exact ⟨by decide, by decide⟩) (by decide)⟩

/-- C9: for every call to consume_one with timeout at most zero, the
deadline is already past when the loop condition is first tested, so no
poll is issued, None (timedOut) is returned at call start, and the consumer
that was opened is closed. -/
theorem consume_one_nonpositive_timeout (cid : String) (timeout start : Int)
    (polls : List Poll) (h : timeout ≤ 0) :
    consume_one cid timeout start polls =
      ⟨ConsumeOutcome.timedOut, start, 0, true⟩ := by
  have hdl : ¬ start < start + 1000 * timeout := by omega
  cases polls with
  | nil => simp [consume_one, consumeLoop, hdl]
  | cons p rest => simp [consume_one, consumeLoop, hdl]

/-- C9 witness: timeout zero returns at once with no poll even though a
poll answer was available. -/
theorem consume_one_nonpositive_timeout_witness :
    (0 : Int) ≤ 0 ∧
    consume_one "x" 0 7 [⟨1000, [RawBody.valid (msgOf "x")]⟩] =
      ⟨ConsumeOutcome.timedOut, 7, 0, true⟩ :=
  ⟨le_refl 0,
   consume_one_nonpositive_timeout "x" 0 7 [⟨1000, [RawBody.valid (msgOf "x")]⟩]
     (le_refl 0)⟩

/-- C5 counterexample: the form value 0 for n is not a positive integer,
yet the topn handler accepts it — int() raises no ValueError on it — and
interacts with the broker (a publish and a subscribe), returning a timeout
rather than a validation error.  The claim that every non-positive count
fails validation before broker interaction is therefore false. -/
theorem topn_nonpositive_counterexample :
    topn envZero (some "0") true "c" 0 [] =
      ⟨HandlerOutcome.gatewayTimeout "Timed out waiting for top-N response",
       [BrokerEvent.publish "topn-request"
          (PyVal.dictCons "correlation_id" (PyVal.str "c")
            (PyVal.dictCons "n" (PyVal.pyint 0) PyVal.emptyDict)),
        BrokerEvent.subscribe "topn-response" "flask-client-c"]⟩ := by
  decide

/-- C5 amended: a top-N request whose count is not parseable as an integer
at all fails fast with the validation error and zero broker events (but a
parseable non-positive integer is accepted); an index or search request
with an empty payload field fails with its validation error before any
broker interaction. -/
theorem validation_fails_before_broker (env : Env) (nField uField tField : Option String)
    (ack : Bool) (cid : String) (start : Int) (polls : List Poll) :
    (topnParseN nField = Option.none →
      topn env nField ack cid start polls =
        ⟨HandlerOutcome.badRequest "N must be an integer", []⟩) ∧
    (pyStrip (uField.getD "") = "" →
      index_papers env uField ack cid start polls =
        ⟨HandlerOutcome.badRequest "No URL provided", []⟩) ∧
    (pyStrip (tField.getD "") = "" →
      search env tField ack cid start polls =
        ⟨HandlerOutcome.badRequest "No search term provided", []⟩) := by
  refine ⟨fun hn => ?_, fun hu => ?_, fun ht => ?_⟩
  · simp [topn, hn]
  · simp [index_papers, hu]
  · simp [search, ht]

/-- C5 amended witness: a non-integer count, an absent URL and a blank term
each fail validation with no broker event. -/
theorem validation_fails_before_broker_witness :
    topn env0 (some "ten") true "c" 0 [] =
      ⟨HandlerOutcome.badRequest "N must be an integer", []⟩ ∧
    index_papers env0 Option.none true "c" 0 [] =
      ⟨HandlerOutcome.badRequest "No URL provided", []⟩ ∧
    search env0 (some "  ") true "c" 0 [] =
      ⟨HandlerOutcome.badRequest "No search term provided", []⟩ :=
  ⟨(validation_fails_before_broker env0 (some "ten") Option.none (some "  ")
      true "c" 0 []).1 (by decide),
   (validation_fails_before_broker env0 (some "ten") Option.none (some "  ")
      true "c" 0 []).2.1 (by decide),
   (validation_fails_before_broker env0 (some "ten") Option.none (some "  ")
      true "c" 0 []).2.2 (by decide)⟩

/-- C6: in every handler call that reaches the publish and whose publish
the broker does not acknowledge, the produce exception is surfaced as the
publish failure (an outcome distinct from the timeout response), and the
listener is never invoked: no subscription to the response topic appears in
the trace. -/
theorem publish_failure_skips_listener (env : Env) (uField tField nField : Option String)
    (cid : String) (start : Int) (polls : List Poll) :
    (pyStrip (uField.getD "") ≠ "" →
      (index_papers env uField false cid start polls).outcome =
        HandlerOutcome.publishRaised ∧
      ∀ t g, BrokerEvent.subscribe t g ∉
        (index_papers env uField false cid start polls).events) ∧
    (pyStrip (tField.getD "") ≠ "" →
      (search env tField false cid start polls).outcome =
        HandlerOutcome.publishRaised ∧
      ∀ t g, BrokerEvent.subscribe t g ∉
        (search env tField false cid start polls).events) ∧
    (∀ n, topnParseN nField = some n →
      (topn env nField false cid start polls).outcome =
        HandlerOutcome.publishRaised ∧
      ∀ t g, BrokerEvent.subscribe t g ∉
        (topn env nField false cid start polls).events) := by
  refine ⟨fun hu => ?_, fun ht => ?_, fun n hn => ?_⟩
  · constructor
    · simp [index_papers, hu]
    · intro t g; simp [index_papers, hu]
  · constructor
    · simp [search, ht]
    · intro t g; simp [search, ht]
  · constructor
    · simp [topn, hn]
    · intro t g; simp [topn, hn]

/-- C6 witness: a failed publish of a valid index request raises and opens
no subscription. -/
theorem publish_failure_skips_listener_witness :
    (index_papers env0 (some "http://scholar") false "c" 0 []).outcome =
      HandlerOutcome.publishRaised ∧
    ∀ t g, BrokerEvent.subscribe t g ∉
      (index_papers env0 (some "http://scholar") false "c" 0 []).events :=
  (publish_failure_skips_listener env0 (some "http://scholar") (some "x") (some "1")
    "c" 0 []).1 (by decide)

/-- C7: first conjunct — in every index, search and top-N call, any trace
is the publish alone, the publish followed by the subscription, or empty,
so the publish of the request always completes before the response-topic
subscription is established.  Second conjunct — if every record the polls
deliver comes from the arrivals visible to a subscription opened with read
position latest (the source configures auto_offset_reset latest under a
fresh group), then any message the call returns arrived strictly after the
subscription was opened; a reply arriving before that instant is never
observed. -/
theorem publish_before_subscribe_latest_only :
    (∀ (env : Env) (u tf nf : Option String) (ack : Bool) (cid : String)
       (start : Int) (polls : List Poll),
      publishFirstB (index_papers env u ack cid start polls).events = true ∧
      publishFirstB (search env tf ack cid start polls).events = true ∧
      publishFirstB (topn env nf ack cid start polls).events = true) ∧
    (∀ (openTime : Int) (log : List Arrival) (cid : String) (timeout start : Int)
       (polls : List Poll) (m : PyVal),
      (∀ p ∈ polls, ∀ r ∈ p.records, r ∈ (visibleTo openTime log).map Arrival.body) →
      (consume_one cid timeout start polls).outcome = ConsumeOutcome.found m →
      ∃ a ∈ log, openTime < a.time ∧ a.body = RawBody.valid m) := by
  constructor
  · intro env u tf nf ack cid start polls
    exact ⟨index_papers_publishFirstB env u ack cid start polls,
      search_publishFirstB env tf ack cid start polls,
      topn_publishFirstB env nf ack cid start polls⟩
  · intro openTime log cid timeout start polls m hvis h
    obtain ⟨-, pre, post, heq, -⟩ := consumeLoop_found_decomp cid _ polls start 0 m h
    have hmem : RawBody.valid m ∈ (polls.map Poll.records).flatten := by
      rw [heq]; exact List.mem_append_right pre (List.mem_cons_self _ _)
    obtain ⟨l, hl, hml⟩ := List.mem_flatten.mp hmem
    obtain ⟨p, hp, hpl⟩ := List.mem_map.mp hl
    have := hvis p hp (RawBody.valid m) (hpl ▸ hml)
    obtain ⟨a, ha, hab⟩ := List.mem_map.mp this
    have haf := List.mem_filter.mp ha
    exact ⟨a, haf.1, by simpa using haf.2, hab⟩

/-- C7 witness: the index handler run publishes first, and a listener fed
only post-subscription arrivals returns a message that arrived after the
subscription opened at time 5 — the reply logged at time 3 is invisible. -/
theorem publish_before_subscribe_latest_only_witness :
    (publishFirstB (index_papers env0 (some "u") true "c" 0 []).events = true ∧
      publishFirstB (search env0 (some "t") true "c" 0 []).events = true ∧
      publishFirstB (topn env0 (some "3") true "c" 0 []).events = true) ∧
    ∃ a ∈ [Arrival.mk 3 (RawBody.valid (msgOf "X")),
           Arrival.mk 7 (RawBody.valid (msgOf "X"))],
      (5 : Int) < a.time ∧ a.body = RawBody.valid (msgOf "X") :=
  ⟨publish_before_subscribe_latest_only.1 env0 (some "u") (some "t") (some "3")
      true "c" 0 [],
   publish_before_subscribe_latest_only.2 5
     [Arrival.mk 3 (RawBody.valid (msgOf "X")), Arrival.mk 7 (RawBody.valid (msgOf "X"))]
     "X" 120 0 [⟨1000, [RawBody.valid (msgOf "X")]⟩] (msgOf "X")
     (by intro p hp r hr; simp at hp; subst hp; simp at hr; subst hr; decide)
     (by decide)⟩

/-- C8 counterexample: with KAFKA_RESPONSE_TIMEOUT set to a non-integer,
a top-N call publishes the request and only then fails with the ValueError
from int() — an invalid configuration value causes a failure in the middle
of a call, after broker interaction, not at process start.  The claim that
invalid configuration always fails at startup and never mid-call is false
on the code, which reads topics and timeout from the environment inside
each handler. -/
theorem timeout_env_midcall_counterexample :
    topn envBadTimeout (some "5") true "c" 0 [] =
      ⟨HandlerOutcome.configRaised,
       [BrokerEvent.publish "topn-request"
          (PyVal.dictCons "correlation_id" (PyVal.str "c")
            (PyVal.dictCons "n" (PyVal.pyint 5) PyVal.emptyDict))]⟩ := by
  decide

/-- C8 amended: topic names and the response timeout are read from the
environment during each request, so an unparseable KAFKA_RESPONSE_TIMEOUT
raises inside the handler after the request has been published (first
conjunct); the required GCP values are validated when trigger_dataproc_job
is called, not at startup (second conjunct). -/
theorem config_read_per_call (env : Env) (nField : Option String) (n : Int)
    (cid : String) (start : Int) (polls : List Poll)
    (hn : topnParseN nField = some n)
    (hbad : pyInt (getenv env "KAFKA_RESPONSE_TIMEOUT" "120") = Option.none) :
    topn env nField true cid start polls =
      ⟨HandlerOutcome.configRaised,
       [BrokerEvent.publish (getenv env "KAFKA_TOPIC_TOPN_REQUEST" "topn-request")
          (PyVal.dictCons "correlation_id" (PyVal.str cid)
            (PyVal.dictCons "n" (PyVal.pyint n) PyVal.emptyDict))]⟩ ∧
    ∀ (c : String) (args : Option (List String)),
      (trigger_dataproc_job "" c args).outcome = DataprocOutcome.envError
        (missingConfig "" c) := by
  constructor
  · simp [topn, hn, hbad]
  · intro c args
    simp [trigger_dataproc_job, missingConfig]

/-- C8 amended witness: the concrete bad-timeout environment fails inside
the call after the publish, and a missing project id raises at call time. -/
theorem config_read_per_call_witness :
    (topn envBadTimeout (some "7") true "c" 0 [] =
      ⟨HandlerOutcome.configRaised,
       [BrokerEvent.publish "topn-request"
          (PyVal.dictCons "correlation_id" (PyVal.str "c")
            (PyVal.dictCons "n" (PyVal.pyint 7) PyVal.emptyDict))]⟩) ∧
    (trigger_dataproc_job "" "cluster" Option.none).outcome =
      DataprocOutcome.envError ["GCP_PROJECT_ID"] := by
  have h := config_read_per_call envBadTimeout (some "7") 7 "c" 0 []
    (by decide) (by decide)
  exact ⟨h.1, h.2 "cluster" Option.none⟩

/-- C10: trigger_dataproc_job raises the EnvironmentError exactly when
GCP_PROJECT_ID or DATAPROC_CLUSTER_NAME is empty, and otherwise — for any
job_args — submits no job and returns the constant placeholder job id. -/
theorem trigger_dataproc_job_spec (p c : String) (args : Option (List String)) :
    ((∃ ms, (trigger_dataproc_job p c args).outcome = DataprocOutcome.envError ms) ↔
      (p = "" ∨ c = "")) ∧
    (p ≠ "" → c ≠ "" →
      trigger_dataproc_job p c args =
        ⟨DataprocOutcome.jobId "dataproc-job-not-yet-implemented", []⟩) ∧
    (trigger_dataproc_job p c args).submittedJobs = [] := by
  by_cases hp : p = "" <;> by_cases hc : c = "" <;>
    simp [trigger_dataproc_job, missingConfig, hp, hc]

/-- C10 witness: with both values set the placeholder id is returned with
no submission, and with the project id empty the error is raised. -/
theorem trigger_dataproc_job_spec_witness :
    trigger_dataproc_job "proj" "clus" (some ["gs://in", "gs://out"]) =
      ⟨DataprocOutcome.jobId "dataproc-job-not-yet-implemented", []⟩ ∧
    ∃ ms, (trigger_dataproc_job "" "clus" Option.none).outcome =
      DataprocOutcome.envError ms :=
  ⟨(trigger_dataproc_job_spec "proj" "clus" (some ["gs://in", "gs://out"])).2.1
      (by decide) (by decide),
   (trigger_dataproc_job_spec "" "clus" Option.none).1.mpr (Or.inl rfl)⟩

end Client
